import Mathlib

/-!
Verification of the review-backend's field mapping, decoding, aggregation,
media-upload registration and publish-all-drafts logic, shallowly embedded
from the JavaScript source (`shopifyService` and `reviewController`).

Modelling conventions:
* JS strings are `String`, JS integers are `Nat` (all numeric values in the
  program are nonnegative ratings/ids), absent values (`undefined`/`null`)
  are `Option`.
* `Number.prototype.toString` on a nonnegative integer is modelled by
  `natToDec` (decimal, most significant digit first, no sign).
* `parseInt` is modelled by `jsParseInt`: maximal leading run of decimal
  digits; `none` models `NaN`.  Leading whitespace and sign handling are not
  modelled, since every string the program feeds to `parseInt` is produced
  by `toString` on a nonnegative integer or is empty/absent.
* The remote platform is an oracle: a metaobject store is a function
  `String -> Except String (Option Metaobject)` (transport error /
  not-found / found), and the media pipeline's three remote phases are an
  oracle `MediaStub`.
-/

/-- A decimal digit character, as produced by JS number-to-string. -/
def digitChar (d : Nat) : Char := Char.ofNat (48 + d)

/-- Decimal printer, fuel-recursive (fuel `n+1` suffices for `n`).
Models `Number.prototype.toString()` / `String(n)` for nonnegative ints. -/
def natToDecAux : Nat → Nat → List Char
  | 0, _ => []
  | fuel + 1, n =>
    if n < 10 then [digitChar n]
    else natToDecAux fuel (n / 10) ++ [digitChar (n % 10)]

/-- Models JS `String(n)` / `n.toString()` for a nonnegative integer. -/
def natToDec (n : Nat) : String := ⟨natToDecAux (n + 1) n⟩

/-- Is `c` a decimal digit character. -/
def isDigCh (c : Char) : Bool := 48 ≤ c.toNat && c.toNat ≤ 57

/-- Core of `parseInt`: consume the maximal leading digit run.
`seen` records whether at least one digit has been consumed. -/
def jsParseIntCore : List Char → Nat → Bool → Option Nat
  | [], acc, seen => if seen then some acc else none
  | c :: rest, acc, seen =>
    if isDigCh c then jsParseIntCore rest (acc * 10 + (c.toNat - 48)) true
    else if seen then some acc else none

/-- Models JS `parseInt(s)` on the strings this program produces;
`none` models `NaN`. -/
def jsParseInt (s : String) : Option Nat := jsParseIntCore s.data 0 false

/-- Models JS `b.toString()` for a boolean. -/
def jsBoolStr (b : Bool) : String := if b then "true" else "false"

/-- Last-write-wins lookup in a key/value list: models reading property `k`
of the JS object built by `fields.forEach((f) => obj[f.key] = f.value)`. -/
def lookupLast (k : String) : List (String × String) → Option String
  | [] => none
  | p :: rest =>
    match lookupLast k rest with
    | some v => some v
    | none => if p.1 = k then some p.2 else none

/-- Models the JS coercion `v || null` for an optional string property. -/
def emptyToNull : Option String → Option String
  | some "" => none
  | x => x

/-- An incoming review submission after Joi validation
(`createReviewSchema` in `reviewController.js`).  `fitRating` is required
by the schema, hence plain `Nat`; media payloads are kept abstract. -/
structure Submission where
  productId : Nat
  rating : Nat
  title : String
  body : String
  authorName : String
  authorEmail : String
  isVerifiedBuyer : Bool
  ageRange : Option String
  sizePurchased : Option String
  fitRating : Nat
  shippingRating : Option Nat
  recommendsProduct : Option Bool
  image : Option String
  video : Option String

/-- Boolean mirror of the Joi schema `createReviewSchema`
(`reviewController.js`).  Joi's email format check is abstracted to
containing an `@`; Joi `string()` rejects the empty string by default. -/
def joiAccepts (s : Submission) : Bool :=
  decide (0 < s.productId) &&
  decide (1 ≤ s.rating) && decide (s.rating ≤ 5) &&
  decide (1 ≤ s.title.length) && decide (s.title.length ≤ 200) &&
  decide (1 ≤ s.body.length) && decide (s.body.length ≤ 2000) &&
  decide (1 ≤ s.authorName.length) && decide (s.authorName.length ≤ 100) &&
  s.authorEmail.data.contains '@' &&
  decide (1 ≤ s.fitRating) && decide (s.fitRating ≤ 5) &&
  (match s.ageRange with
   | none => true
   | some v => decide (1 ≤ v.length) && decide (v.length ≤ 50)) &&
  (match s.sizePurchased with
   | none => true
   | some v => decide (1 ≤ v.length) && decide (v.length ≤ 50)) &&
  (match s.shippingRating with
   | none => true
   | some n => decide (1 ≤ n) && decide (n ≤ 5))

/-- The scalar field list built by `createProductRating`
(`shopifyService`, lines 305-329), before any media field is pushed.
`now` is the `new Date().toISOString()` stamp. -/
def toFields (s : Submission) (now : String) : List (String × String) :=
  [("product_id", natToDec s.productId),
   ("rating", natToDec s.rating),
   ("title", s.title),
   ("body", s.body),
   ("author_name", s.authorName),
   ("author_email", s.authorEmail),
   ("is_verified_buyer", jsBoolStr s.isVerifiedBuyer),
   ("is_approved", "false"),
   ("created_at", now),
   ("age_range", s.ageRange.getD ""),
   ("size_purchased", s.sizePurchased.getD ""),
   ("fit_rating", natToDec s.fitRating),
   ("shipping_rating",
     match s.shippingRating with
     | none => ""
     | some n => natToDec n),
   ("recommends_product",
     match s.recommendsProduct with
     | none => "false"
     | some b => jsBoolStr b)]

/-- A metaobject as held by the platform: fields plus the publishable
capability status (`capabilities.publishable.status`, the DRAFT/ACTIVE
lifecycle).  The capability status is NOT one of the fields. -/
structure Metaobject where
  id : String
  fields : List (String × String)
  capabilityStatus : String

/-- The typed record produced by `getMetaobjectById` (`shopifyService`,
lines 618-647).  The JS object is `{...fields}` overlaid with explicit
coercions; `product_id` and `status` reach the result only through the
spread of the raw fields (the query does not fetch the capability
status).  `rating` is always a number in JS (`parseInt(...) || 0`), so it
is `some _` whenever produced by `decode`; `none` models JS `null`. -/
structure ReviewRecord where
  id : String
  product_id : Option String
  status : Option String
  rating : Option Nat
  fitRating : Option Nat
  shippingRating : Option Nat
  isVerifiedBuyer : Bool
  isApproved : Bool
  recommendsProduct : Bool
  createdAt : Option String
  authorName : Option String
  authorEmail : Option String
  title : Option String
  body : Option String
  ageRange : Option String
  sizePurchased : Option String
  image : Option String
  video : Option String

/-- Models `fields.k ? parseInt(fields.k) : null` (`fit_rating`,
`shipping_rating`).  A non-numeric nonempty value gives `none`, which
conflates JS `NaN` with `null`; no claim distinguishes the two. -/
def numOrNull (o : Option String) : Option Nat :=
  match o with
  | none => none
  | some v => if v = "" then none else jsParseInt v

/-- The field-list-to-record conversion inside `getMetaobjectById`
(`shopifyService`, lines 618-647). -/
def decode (m : Metaobject) : ReviewRecord :=
  let f := fun k => lookupLast k m.fields
  { id := m.id
    product_id := f "product_id"
    status := f "status"
    rating := some (((f "rating").bind jsParseInt).getD 0)
    fitRating := numOrNull (f "fit_rating")
    shippingRating := numOrNull (f "shipping_rating")
    isVerifiedBuyer := f "is_verified_buyer" == some "true"
    isApproved := f "is_approved" == some "true"
    recommendsProduct := f "recommends_product" == some "true"
    createdAt := f "created_at"
    authorName := f "author_name"
    authorEmail := f "author_email"
    title := f "title"
    body := f "body"
    ageRange := emptyToNull (f "age_range")
    sizePurchased := emptyToNull (f "size_purchased")
    image := emptyToNull (f "image")
    video := emptyToNull (f "video") }

/-- `getMetaobjectById`: the remote store is an oracle; a transport or
GraphQL error (the catch branch) and a null `metaobject` in the response
both yield `null`. -/
def getMetaobjectById (db : String → Except String (Option Metaobject))
    (mid : String) : Option ReviewRecord :=
  match db mid with
  | .error _ => none
  | .ok none => none
  | .ok (some m) => some (decode m)

/-- Round trip used by the mapper claims: encode a submission, then decode
the resulting field list as `getMetaobjectById` would. -/
def roundTrip (s : Submission) (now : String) : ReviewRecord :=
  decode ⟨"gid-rt", toFields s now, "ACTIVE"⟩

/-- C2's notion of the decoded record reproducing every scalar field of
the submission exactly.  On the decoder's side absence is `null`
(`Option.none`); `recommendsProduct` is always a boolean after decoding,
so exact reproduction demands the submission carried exactly that boolean;
`product_id` survives only as the raw string field carried by the spread. -/
@[reducible] def reproducesScalars (s : Submission) (r : ReviewRecord) : Prop :=
  r.product_id = some (natToDec s.productId) ∧
  r.rating = some s.rating ∧
  r.fitRating = some s.fitRating ∧
  r.shippingRating = s.shippingRating ∧
  r.isVerifiedBuyer = s.isVerifiedBuyer ∧
  s.recommendsProduct = some r.recommendsProduct ∧
  r.title = some s.title ∧
  r.body = some s.body ∧
  r.authorName = some s.authorName ∧
  r.authorEmail = some s.authorEmail ∧
  r.ageRange = s.ageRange ∧
  r.sizePurchased = s.sizePurchased

/-- A parameter of a staged upload target. -/
structure StagedParam where
  name : String
  value : String
  deriving DecidableEq

/-- A staged upload target (`stagedUploadsCreate` response). -/
structure StagedTarget where
  url : String
  resourceUrl : String
  parameters : List StagedParam

/-- Does `pat` occur at the head of `l`. -/
def leadsWith : List Char → List Char → Bool
  | [], _ => true
  | _ :: _, [] => false
  | c :: cs, d :: ds => c == d && leadsWith cs ds

/-- Does `pat` occur anywhere in `l`. -/
def occursIn (pat : List Char) : List Char → Bool
  | [] => leadsWith pat []
  | c :: rest => leadsWith pat (c :: rest) || occursIn pat rest

/-- Models JS `s.includes(sub)`: substring occurrence. -/
def includesSub (s sub : String) : Bool := occursIn sub.data s.data

/-- Models `stagedTarget.url.endsWith("/") ? url.slice(0, -1) : url`. -/
def stripSlash (u : String) : String :=
  match u.data.getLast? with
  | some c => if c = '/' then ⟨u.data.dropLast⟩ else u
  | none => u

/-- Models `value.split("/").pop()`: the characters after the last slash
(the whole string when no slash occurs, the empty string after a trailing
slash — exactly what `split`/`pop` gives). -/
def lastSegment (v : String) : String :=
  ⟨v.data.foldl (fun acc c => if c = '/' then [] else acc ++ [c]) []⟩

/-- Models `stagedTarget.parameters.find((p) => p.name === "key")`. -/
def findKeyParam (ps : List StagedParam) : Option StagedParam :=
  ps.find? (fun p => p.name == "key")

/-- The register-phase resource-URL and filename construction in
`processFileUpload` (`shopifyService`, lines 239-266): `some (url, name?)`
is what is passed to `fileCreate`; `none` models the TypeError thrown when
no `key` parameter exists in the non-video branch (caught by the
surrounding try, so the upload fails). -/
def registerArgs (t : StagedTarget) : Option (String × Option String) :=
  if includesSub t.resourceUrl "external_video_id" then
    some (t.resourceUrl, none)
  else
    match findKeyParam t.parameters with
    | some kp =>
        some (stripSlash t.url ++ "/" ++ kp.value, some (lastSegment kp.value))
    | none => none

/-- Outcomes of the three remote phases of one media upload
(stage, binary upload, register), as an oracle. -/
structure MediaStub where
  stage : Except String StagedTarget
  upload : Except String Unit
  register : Except String String

/-- Did an `Except` computation fail. -/
def exceptFailed : Except String α → Bool
  | .error _ => true
  | .ok _ => false

/-- `processFileUpload`: stage, then upload, then register; the first
failing phase aborts the pipeline (`shopifyService`, lines 219-274). -/
def processFileUpload (ms : MediaStub) : Except String String :=
  match ms.stage with
  | .error e => .error e
  | .ok _ =>
    match ms.upload with
    | .error e => .error e
    | .ok _ => ms.register

/-- Models `if (ratingData.image) { try { ...push({key, value: fileId}) }
catch { /* continue without image */ } }` in `createProductRating`. -/
def mediaFieldEntry (key : String) (payload : Option String)
    (ms : MediaStub) : List (String × String) :=
  match payload with
  | none => []
  | some _ =>
    match processFileUpload ms with
    | .ok fid => [(key, fid)]
    | .error _ => []

/-- The full field list sent by `metaobjectCreate`: scalar fields, then the
image field if its upload succeeded, then the video field likewise. -/
def createRatingFields (s : Submission) (now : String)
    (img vid : MediaStub) : List (String × String) :=
  toFields s now ++ mediaFieldEntry "image" s.image img
    ++ mediaFieldEntry "video" s.video vid

/-- The `metaobjectCreate` variables built by `createProductRating`
(`shopifyService`, lines 365-375). -/
structure MetaobjectCreateRequest where
  type : String
  fields : List (String × String)
  capabilityStatus : String

/-- The request `createProductRating` sends to the platform. -/
def createRatingRequest (s : Submission) (now : String)
    (img vid : MediaStub) : MetaobjectCreateRequest :=
  ⟨"product_rating", createRatingFields s now img vid, "ACTIVE"⟩

/-- Remote outcomes of the two mutations in the create-review path. -/
structure RemoteStub where
  createUserErrors : List String
  linkUserErrors : List String

/-- The JSON reply of `POST /api/reviews` as far as the claims observe it:
status code and the file ids echoed back (`fieldMap.image || null`). -/
structure HttpReply where
  status : Nat
  imageFileId : Option String
  videoFileId : Option String

/-- The `createReview` controller (`reviewController.js`, lines 58-133):
validate (400), create the metaobject (media failures are swallowed inside
`createProductRating`), link to the product, then 201 with the field map;
a failing mutation surfaces as 500. -/
def createReview (s : Submission) (now : String) (img vid : MediaStub)
    (r : RemoteStub) : HttpReply :=
  if joiAccepts s = false then ⟨400, none, none⟩
  else if r.createUserErrors ≠ [] then ⟨500, none, none⟩
  else if r.linkUserErrors ≠ [] then ⟨500, none, none⟩
  else
    let flds := createRatingFields s now img vid
    ⟨201, emptyToNull (lookupLast "image" flds),
      emptyToNull (lookupLast "video" flds)⟩

/-- The statistics object of `getReviewStats`
(`reviewController.js`, lines 302-341). -/
structure ReviewStats where
  totalReviews : Nat
  averageRating : Rat
  ratingDistribution : List (Nat × Nat)
  verifiedBuyers : Nat
  recommendations : Nat
  recommendationRate : Int
  deriving DecidableEq

/-- Models JS `Math.round` (half up, which on the nonnegative values that
occur here is half away from zero): floor of `q + 1/2`. -/
def jsRound (q : Rat) : Int := ⌊q + 1/2⌋

/-- `getReviewStats`'s aggregation over the fetched records
(`reviewController.js`, lines 302-341).  `r.rating.getD 0` mirrors JS
addition coercing `null` to `0`; `decode` in fact always yields a number. -/
def computeStats (reviews : List ReviewRecord) : ReviewStats :=
  let approved := reviews.filter (fun r => r.isApproved)
  let totalReviews := approved.length
  let ratingSum : Nat := approved.foldl (fun a r => a + r.rating.getD 0) 0
  let averageRating : Rat :=
    if totalReviews > 0 then (ratingSum : Rat) / (totalReviews : Rat) else 0
  let recommendations := (approved.filter (fun r => r.recommendsProduct)).length
  { totalReviews := totalReviews
    averageRating := (jsRound (averageRating * 10) : Rat) / 10
    ratingDistribution :=
      [1, 2, 3, 4, 5].map
        (fun k => (k, (approved.filter (fun r => r.rating == some k)).length))
    verifiedBuyers := (approved.filter (fun r => r.isVerifiedBuyer)).length
    recommendations := recommendations
    recommendationRate :=
      if totalReviews > 0 then
        jsRound ((recommendations : Rat) / (totalReviews : Rat) * 100)
      else 0 }

/-- The draft test in `publishAllDraftRatings` (`shopifyService`, lines
789-805): a fetch failure, an absent or falsy `status` property, or a
`status` other than exactly `"ACTIVE"` all classify the object as draft. -/
def classifyDraft : Option ReviewRecord → Bool
  | none => true
  | some r =>
    match r.status with
    | none => true
    | some st => if st = "" then true else st != "ACTIVE"

/-- The result ledger of `publishAllDraftRatings`. -/
structure PublishSummary where
  totalProcessed : Nat
  successful : Nat
  failed : Nat
  attempted : List String
  deriving DecidableEq

/-- `publishAllDraftRatings` (`shopifyService`, lines 782-832): refetch
each listed id via `getMetaobjectById`, keep those classified as draft,
republish each, and report counts.  `ids` is the (≤ 250) listed batch and
`publishOk` the per-id outcome of `publishMetaobject`. -/
def publishAllDraftRatings (db : String → Except String (Option Metaobject))
    (ids : List String) (publishOk : String → Bool) : PublishSummary :=
  let drafts := ids.filter (fun i => classifyDraft (getMetaobjectById db i))
  let results := drafts.map (fun i => (i, publishOk i))
  { totalProcessed := drafts.length
    successful := (results.filter (fun p => p.2)).length
    failed := (results.filter (fun p => !p.2)).length
    attempted := drafts }

/-- Concrete submission with every optional present (witness input). -/
def subFull : Submission :=
  { productId := 8121993
    rating := 5
    title := "Great jeans"
    body := "Fits perfectly and looks great."
    authorName := "Dana"
    authorEmail := "dana@example.com"
    isVerifiedBuyer := true
    ageRange := some "25-34"
    sizePurchased := some "32"
    fitRating := 4
    shippingRating := some 3
    recommendsProduct := some true
    image := none
    video := none }

/-- Concrete submission whose optional fields are all absent
(counterexample input for the mapper claims). -/
def subBare : Submission :=
  { productId := 42
    rating := 3
    title := "Ok"
    body := "Decent."
    authorName := "Sam"
    authorEmail := "sam@example.com"
    isVerifiedBuyer := false
    ageRange := none
    sizePurchased := none
    fitRating := 2
    shippingRating := none
    recommendsProduct := none
    image := none
    video := none }

/-- Scenario object A for the publish-all-drafts claim: lifecycle
(publishable capability) status ACTIVE, and no field named `status`. -/
def objA : Metaobject :=
  ⟨"gid-A", [("rating", "5"), ("is_approved", "true")], "ACTIVE"⟩

/-- Scenario object B for the publish-all-drafts claim: no status field. -/
def objB : Metaobject :=
  ⟨"gid-B", [("rating", "4")], "DRAFT"⟩

/-- The two-object store of the publish-all-drafts scenario. -/
def dbAB : String → Except String (Option Metaobject) :=
  fun i =>
    if i = "gid-A" then .ok (some objA)
    else if i = "gid-B" then .ok (some objB)
    else .ok none

/-- A staged target whose resource URL carries an external video id. -/
def targetVid : StagedTarget :=
  ⟨"https://upload.example/video",
   "https://videos.example/v1?external_video_id=xyz", []⟩

/-- A staged image target with a `key` parameter. -/
def targetImg : StagedTarget :=
  ⟨"https://upload.example/bucket/",
   "https://storage.example/tmp",
   [⟨"key", "tmp/review-image-1.jpg"⟩, ⟨"policy", "p"⟩]⟩

/-- Concrete submission carrying an image payload (witness input). -/
def subWithImage : Submission := { subFull with image := some "aGVsbG8=" }

/-- Media stub whose binary-upload phase fails with a non-2xx response. -/
def msFailUpload : MediaStub :=
  ⟨.ok targetImg, .error "Upload failed: Forbidden", .ok "gid-file-1"⟩

/-- Media stub with all three phases succeeding. -/
def msOk : MediaStub := ⟨.ok targetImg, .ok (), .ok "gid-file-9"⟩

/-- Remote stub with no user errors on either mutation. -/
def remoteOk : RemoteStub := ⟨[], []⟩

/-- A raw metaobject whose numeric fields are all empty strings. -/
def metaRatingEmpty : Metaobject :=
  ⟨"gid-X", [("rating", ""), ("fit_rating", ""), ("shipping_rating", "")], "DRAFT"⟩

theorem digitChar_toNat {d : Nat} (h : d < 10) : (digitChar d).toNat = 48 + d := by
  interval_cases d <;> decide

theorem isDigCh_digitChar {d : Nat} (h : d < 10) : isDigCh (digitChar d) = true := by
  interval_cases d <;> decide

theorem jsParseIntCore_digits (l : List Char) :
    ∀ acc, (∀ c ∈ l, isDigCh c = true) →
      jsParseIntCore l acc true
        = some (l.foldl (fun a c => a * 10 + (c.toNat - 48)) acc) := by
  induction l with
  | nil => intro acc _; rfl
  | cons c rest ih =>
    intro acc h
    have hc : isDigCh c = true := h c (List.mem_cons_self c rest)
    simp only [jsParseIntCore, hc, if_true, List.foldl_cons]
    exact ih _ (fun x hx => h x (List.mem_cons_of_mem c hx))

theorem jsParseIntCore_start (l : List Char) (h : ∀ c ∈ l, isDigCh c = true)
    (hne : l ≠ []) :
    jsParseIntCore l 0 false
      = some (l.foldl (fun a c => a * 10 + (c.toNat - 48)) 0) := by
  cases l with
  | nil => exact absurd rfl hne
  | cons c rest =>
    have hc : isDigCh c = true := h c (List.mem_cons_self c rest)
    simp only [jsParseIntCore, hc, if_true, List.foldl_cons]
    exact jsParseIntCore_digits rest _ (fun x hx => h x (List.mem_cons_of_mem c hx))

theorem natToDecAux_digits :
    ∀ f n, n < f → ∀ c ∈ natToDecAux f n, isDigCh c = true := by
  intro f
  induction f with
  | zero => intro n hn; omega
  | succ f ih =>
    intro n hn c hc
    by_cases h10 : n < 10
    · simp only [natToDecAux, if_pos h10, List.mem_singleton] at hc
      subst hc; exact isDigCh_digitChar h10
    · simp only [natToDecAux, if_neg h10, List.mem_append, List.mem_singleton] at hc
      rcases hc with hc | hc
      · have hlt : n / 10 < f :=
          lt_of_lt_of_le (Nat.div_lt_self (by omega) (by omega)) (by omega)
        exact ih (n / 10) hlt c hc
      · subst hc; exact isDigCh_digitChar (Nat.mod_lt n (by omega))

theorem natToDecAux_ne_nil : ∀ f n, n < f → natToDecAux f n ≠ [] := by
  intro f n hn
  cases f with
  | zero => omega
  | succ f =>
    by_cases h10 : n < 10
    · simp [natToDecAux, if_pos h10]
    · simp [natToDecAux, if_neg h10]

theorem natToDecAux_foldl :
    ∀ f n acc, n < f →
      (natToDecAux f n).foldl (fun a c => a * 10 + (c.toNat - 48)) acc
        = acc * 10 ^ (natToDecAux f n).length + n := by
  intro f
  induction f with
  | zero => intro n acc hn; omega
  | succ f ih =>
    intro n acc hn
    by_cases h10 : n < 10
    · simp only [natToDecAux, if_pos h10, List.foldl_cons, List.foldl_nil,
        List.length_singleton, pow_one, digitChar_toNat h10]
      omega
    · have hlt : n / 10 < f :=
        lt_of_lt_of_le (Nat.div_lt_self (by omega) (by omega)) (by omega)
      simp only [natToDecAux, if_neg h10, List.foldl_append, List.foldl_cons,
        List.foldl_nil, List.length_append, List.length_singleton,
        digitChar_toNat (Nat.mod_lt n (by omega)), ih (n / 10) _ hlt]
      have hmod : n / 10 * 10 + n % 10 = n := by omega
      rw [pow_succ]
      ring_nf
      omega

theorem jsParseInt_natToDec (n : Nat) : jsParseInt (natToDec n) = some n := by
  have hdata : (natToDec n).data = natToDecAux (n + 1) n := rfl
  unfold jsParseInt
  rw [hdata,
    jsParseIntCore_start _ (natToDecAux_digits (n + 1) n (by omega))
      (natToDecAux_ne_nil (n + 1) n (by omega)),
    natToDecAux_foldl (n + 1) n 0 (by omega)]
  simp

theorem natToDec_ne_empty (n : Nat) : natToDec n ≠ "" := by
  intro h
  have : (natToDec n).data = [] := by rw [h]
  exact natToDecAux_ne_nil (n + 1) n (by omega) this

theorem lookupLast_append (k : String) (l₁ l₂ : List (String × String)) :
    lookupLast k (l₁ ++ l₂)
      = match lookupLast k l₂ with
        | some v => some v
        | none => lookupLast k l₁ := by
  induction l₁ with
  | nil => cases h : lookupLast k l₂ <;> simp [lookupLast, h]
  | cons p l₁ ih =>
    show (match lookupLast k (l₁ ++ l₂) with
      | some v => some v
      | none => if p.1 = k then some p.2 else none) = _
    rw [ih]
    cases h₂ : lookupLast k l₂ <;> cases h₁ : lookupLast k l₁ <;> simp [lookupLast, h₁]

theorem lookupLast_mediaFieldEntry_ne {k key : String} (h : key ≠ k)
    (p : Option String) (ms : MediaStub) :
    lookupLast k (mediaFieldEntry key p ms) = none := by
  cases p with
  | none => rfl
  | some v =>
    unfold mediaFieldEntry
    cases processFileUpload ms with
    | error e => rfl
    | ok fid => simp [lookupLast, h]

theorem mediaFieldEntry_of_failed {ms : MediaStub} {e : String}
    (h : processFileUpload ms = .error e) (key : String) (p : Option String) :
    mediaFieldEntry key p ms = [] := by
  cases p with
  | none => rfl
  | some v => unfold mediaFieldEntry; rw [h]

theorem processFileUpload_failed_of_phase {ms : MediaStub}
    (h : exceptFailed ms.stage = true ∨ exceptFailed ms.upload = true ∨
      exceptFailed ms.register = true) :
    ∃ e, processFileUpload ms = .error e := by
  unfold processFileUpload
  cases hs : ms.stage with
  | error e => exact ⟨e, rfl⟩
  | ok t =>
    cases hu : ms.upload with
    | error e => exact ⟨e, rfl⟩
    | ok u =>
      cases hr : ms.register with
      | error e => exact ⟨e, rfl⟩
      | ok fid =>
        rcases h with h | h | h <;>
          simp [hs, hu, hr, exceptFailed] at h

theorem emptyToNull_of_ne {v : String} (h : v ≠ "") :
    emptyToNull (some v) = some v := by
  unfold emptyToNull
  split
  · next heq => exact absurd (Option.some_injective _ heq) h
  · rfl

theorem roundTrip_rating (s : Submission) (now : String) :
    (roundTrip s now).rating = some s.rating := by
  show some (((some (natToDec s.rating)).bind jsParseInt).getD 0) = some s.rating
  rw [Option.some_bind, jsParseInt_natToDec]
  rfl

theorem roundTrip_fitRating (s : Submission) (now : String) :
    (roundTrip s now).fitRating = some s.fitRating := by
  show numOrNull (some (natToDec s.fitRating)) = some s.fitRating
  simp only [numOrNull]
  rw [if_neg (natToDec_ne_empty s.fitRating), jsParseInt_natToDec]

theorem roundTrip_shippingRating (s : Submission) (now : String) :
    (roundTrip s now).shippingRating = s.shippingRating := by
  show numOrNull (some (match s.shippingRating with
    | none => ""
    | some n => natToDec n)) = s.shippingRating
  cases hn : s.shippingRating with
  | none => rfl
  | some n =>
    simp only [numOrNull]
    rw [if_neg (natToDec_ne_empty n), jsParseInt_natToDec]

theorem roundTrip_isVerifiedBuyer (s : Submission) (now : String) :
    (roundTrip s now).isVerifiedBuyer = s.isVerifiedBuyer := by
  show (some (jsBoolStr s.isVerifiedBuyer) == some "true") = s.isVerifiedBuyer
  cases h : s.isVerifiedBuyer <;> rfl

theorem roundTrip_recommendsProduct (s : Submission) (now : String) (b : Bool)
    (hb : s.recommendsProduct = some b) :
    (roundTrip s now).recommendsProduct = b := by
  show (some (match s.recommendsProduct with
    | none => "false"
    | some b' => jsBoolStr b') == some "true") = b
  rw [hb]
  cases b <;> rfl

theorem roundTrip_ageRange (s : Submission) (now : String)
    (h : ∀ v, s.ageRange = some v → v ≠ "") :
    (roundTrip s now).ageRange = s.ageRange := by
  show emptyToNull (some (s.ageRange.getD "")) = s.ageRange
  cases ha : s.ageRange with
  | none => rfl
  | some v => exact emptyToNull_of_ne (h v ha)

theorem roundTrip_sizePurchased (s : Submission) (now : String)
    (h : ∀ v, s.sizePurchased = some v → v ≠ "") :
    (roundTrip s now).sizePurchased = s.sizePurchased := by
  show emptyToNull (some (s.sizePurchased.getD "")) = s.sizePurchased
  cases ha : s.sizePurchased with
  | none => rfl
  | some v => exact emptyToNull_of_ne (h v ha)

theorem joiAccepts_ageRange_ne {s : Submission} (hv : joiAccepts s = true) :
    ∀ v, s.ageRange = some v → v ≠ "" := by
  intro v hvv he
  subst he
  unfold joiAccepts at hv
  rw [hvv] at hv
  simp at hv

theorem joiAccepts_sizePurchased_ne {s : Submission} (hv : joiAccepts s = true) :
    ∀ v, s.sizePurchased = some v → v ≠ "" := by
  intro v hvv he
  subst he
  unfold joiAccepts at hv
  rw [hvv] at hv
  simp at hv

/-- C2 counterexample: for the valid submission `subBare`, whose optional
`recommendsProduct` is absent, the decoded record does not reproduce every
scalar field exactly: the absent `recommendsProduct` comes back as the
boolean `false` (the encoder writes `"false"` for a missing value), so the
round-trip is not exact. -/
theorem C2_roundtrip_counterexample :
    joiAccepts subBare = true ∧
    subBare.recommendsProduct = none ∧
    (roundTrip subBare "2024-05-01T00:00:00.000Z").recommendsProduct = false ∧
    ¬ reproducesScalars subBare (roundTrip subBare "2024-05-01T00:00:00.000Z") := by
  decide

/-- C2 amended: for every valid submission whose `recommendsProduct` is
present, decoding the encoded field list reproduces every scalar field of
the submission exactly — rating, fitRating, shippingRating, title, body,
authorName, authorEmail, isVerifiedBuyer, ageRange, sizePurchased and
recommendsProduct, with productId surviving as the raw string field
`product_id` — and `isApproved` is forced to `false`.  (An absent
`recommendsProduct` instead decodes to the boolean `false`, per the
counterexample.) -/
theorem C2_roundtrip_amended (s : Submission) (now : String) (b : Bool)
    (hv : joiAccepts s = true) (hb : s.recommendsProduct = some b) :
    reproducesScalars s (roundTrip s now) ∧
    (roundTrip s now).isApproved = false := by
  refine ⟨⟨rfl, roundTrip_rating s now, roundTrip_fitRating s now,
    roundTrip_shippingRating s now, roundTrip_isVerifiedBuyer s now,
    ?_, rfl, rfl, rfl, rfl,
    roundTrip_ageRange s now (joiAccepts_ageRange_ne hv),
    roundTrip_sizePurchased s now (joiAccepts_sizePurchased_ne hv)⟩, rfl⟩
  rw [hb, roundTrip_recommendsProduct s now b hb]

/-- C2 witness: the amended round-trip theorem instantiated at the
concrete fully-populated valid submission `subFull`. -/
theorem C2_roundtrip_witness :
    reproducesScalars subFull (roundTrip subFull "2024-05-01T00:00:00.000Z") ∧
    (roundTrip subFull "2024-05-01T00:00:00.000Z").isApproved = false :=
  C2_roundtrip_amended subFull "2024-05-01T00:00:00.000Z" true (by decide) rfl

/-- C6: for every submission, the encoded field list sets the moderation
field `is_approved` to `"false"` — never `"true"` — regardless of
submission content, and the mapped `rating` value is the decimal string of
the submitted integer rating. -/
theorem C6_approval_default (s : Submission) (now : String) :
    lookupLast "is_approved" (toFields s now) = some "false" ∧
    lookupLast "is_approved" (toFields s now) ≠ some "true" ∧
    lookupLast "rating" (toFields s now) = some (natToDec s.rating) := by
  refine ⟨rfl, ?_, rfl⟩
  intro h
  have : some "false" = some "true" := h
  simp at this

/-- C7 counterexample: for the valid submission `subBare`, whose optional
`recommendsProduct` is absent, the encoder maps `recommends_product` to
`"false"`, not to the empty string the claim requires for every missing
optional field. -/
theorem C7_coercion_counterexample :
    subBare.recommendsProduct = none ∧
    lookupLast "recommends_product" (toFields subBare "2024-05-01T00:00:00.000Z")
      = some "false" ∧
    lookupLast "recommends_product" (toFields subBare "2024-05-01T00:00:00.000Z")
      ≠ some "" := by
  decide

/-- C7 amended: the encoder coerces booleans to `"true"`/`"false"` and
numbers to decimal strings; a missing `ageRange`, `sizePurchased` or
`shippingRating` maps to the empty string, but a missing
`recommendsProduct` maps to `"false"`. -/
theorem C7_coercion_amended (s : Submission) (now : String)
    (h1 : s.ageRange = none) (h2 : s.sizePurchased = none)
    (h3 : s.shippingRating = none) (h4 : s.recommendsProduct = none) :
    lookupLast "age_range" (toFields s now) = some "" ∧
    lookupLast "size_purchased" (toFields s now) = some "" ∧
    lookupLast "shipping_rating" (toFields s now) = some "" ∧
    lookupLast "recommends_product" (toFields s now) = some "false" ∧
    lookupLast "is_verified_buyer" (toFields s now)
      = some (jsBoolStr s.isVerifiedBuyer) ∧
    lookupLast "rating" (toFields s now) = some (natToDec s.rating) ∧
    lookupLast "product_id" (toFields s now) = some (natToDec s.productId) ∧
    lookupLast "fit_rating" (toFields s now) = some (natToDec s.fitRating) := by
  refine ⟨?_, ?_, ?_, ?_, rfl, rfl, rfl, rfl⟩
  · show some (s.ageRange.getD "") = some ""
    rw [h1]; rfl
  · show some (s.sizePurchased.getD "") = some ""
    rw [h2]; rfl
  · show some (match s.shippingRating with
      | none => ""
      | some n => natToDec n) = some ""
    rw [h3]
  · show some (match s.recommendsProduct with
      | none => "false"
      | some b => jsBoolStr b) = some "false"
    rw [h4]

/-- C7 witness: the amended coercion theorem instantiated at the concrete
submission `subBare`, whose optional fields are all absent. -/
theorem C7_coercion_witness :
    lookupLast "age_range" (toFields subBare "t0") = some "" ∧
    lookupLast "size_purchased" (toFields subBare "t0") = some "" ∧
    lookupLast "shipping_rating" (toFields subBare "t0") = some "" ∧
    lookupLast "recommends_product" (toFields subBare "t0") = some "false" ∧
    lookupLast "is_verified_buyer" (toFields subBare "t0")
      = some (jsBoolStr subBare.isVerifiedBuyer) ∧
    lookupLast "rating" (toFields subBare "t0") = some (natToDec subBare.rating) ∧
    lookupLast "product_id" (toFields subBare "t0")
      = some (natToDec subBare.productId) ∧
    lookupLast "fit_rating" (toFields subBare "t0")
      = some (natToDec subBare.fitRating) :=
  C7_coercion_amended subBare "t0" rfl rfl rfl rfl

/-- C3: every review metaobject is created with its publishable capability
status set to `"ACTIVE"` (never DRAFT), while the `is_approved` field in
the very same request is `"false"`, whatever the submission and whatever
the media-upload outcomes. -/
theorem C3_created_active (s : Submission) (now : String) (img vid : MediaStub) :
    (createRatingRequest s now img vid).capabilityStatus = "ACTIVE" ∧
    (createRatingRequest s now img vid).type = "product_rating" ∧
    lookupLast "is_approved" (createRatingRequest s now img vid).fields
      = some "false" := by
  refine ⟨rfl, rfl, ?_⟩
  have hv : lookupLast "is_approved" (mediaFieldEntry "video" s.video vid) = none :=
    lookupLast_mediaFieldEntry_ne (by decide) _ _
  have hi : lookupLast "is_approved" (mediaFieldEntry "image" s.image img) = none :=
    lookupLast_mediaFieldEntry_ne (by decide) _ _
  show lookupLast "is_approved"
    (toFields s now ++ mediaFieldEntry "image" s.image img
      ++ mediaFieldEntry "video" s.video vid) = some "false"
  rw [lookupLast_append, hv, lookupLast_append, hi]
  rfl

/-- C4: for every valid submission that carries an image payload, a failure
in any phase of the media pipeline (stage, upload or register) does not
fail review creation: the metaobject is created with no `image` field, and
the request still returns HTTP 201 with a null image file id. -/
theorem C4_media_failure_nonfatal (s : Submission) (now : String)
    (img vid : MediaStub) (r : RemoteStub)
    (hv : joiAccepts s = true) (_him : s.image.isSome = true)
    (hph : exceptFailed img.stage = true ∨ exceptFailed img.upload = true ∨
      exceptFailed img.register = true)
    (hc : r.createUserErrors = []) (hl : r.linkUserErrors = []) :
    (createReview s now img vid r).status = 201 ∧
    lookupLast "image" (createRatingFields s now img vid) = none ∧
    (createReview s now img vid r).imageFileId = none := by
  obtain ⟨e, he⟩ := processFileUpload_failed_of_phase hph
  have himg : mediaFieldEntry "image" s.image img = [] :=
    mediaFieldEntry_of_failed he _ _
  have hvno : lookupLast "image" (mediaFieldEntry "video" s.video vid) = none :=
    lookupLast_mediaFieldEntry_ne (by decide) _ _
  have hflds : lookupLast "image" (createRatingFields s now img vid) = none := by
    show lookupLast "image"
      (toFields s now ++ mediaFieldEntry "image" s.image img
        ++ mediaFieldEntry "video" s.video vid) = none
    rw [lookupLast_append, hvno, lookupLast_append, himg]
    rfl
  refine ⟨?_, hflds, ?_⟩ <;>
    simp [createReview, hv, hc, hl, hflds, emptyToNull]

/-- C4 witness: the non-fatality theorem instantiated at the concrete
valid submission `subWithImage` with an upload-phase failure. -/
theorem C4_media_failure_witness :
    (createReview subWithImage "t0" msFailUpload msOk remoteOk).status = 201 ∧
    lookupLast "image" (createRatingFields subWithImage "t0" msFailUpload msOk)
      = none ∧
    (createReview subWithImage "t0" msFailUpload msOk remoteOk).imageFileId
      = none :=
  C4_media_failure_nonfatal subWithImage "t0" msFailUpload msOk remoteOk
    (by decide) (by decide) (Or.inr (Or.inl (by decide))) rfl rfl

/-- C10: whenever the platform reports no object for an id (a null
`metaobject` in the response), `getMetaobjectById` returns null rather
than raising an error. -/
theorem C10_not_found_null (db : String → Except String (Option Metaobject))
    (mid : String) (h : db mid = .ok none) :
    getMetaobjectById db mid = none := by
  unfold getMetaobjectById
  rw [h]

/-- C10 witness: the not-found theorem instantiated at a store with no
objects at all. -/
theorem C10_not_found_witness :
    getMetaobjectById (fun _ => .ok none) "gid-missing" = none :=
  C10_not_found_null (fun _ => .ok none) "gid-missing" rfl

/-- C9: in the register phase, a staged target whose resource URL encodes
an external-video-identifier is registered with that resource URL verbatim
and no filename; any other staged target is registered under the base
staged URL with the staged `key` parameter value appended, with the
filename taken from the key's last path segment. -/
theorem C9_register_construction (t : StagedTarget) (kp : StagedParam) :
    (includesSub t.resourceUrl "external_video_id" = true →
      registerArgs t = some (t.resourceUrl, none)) ∧
    (includesSub t.resourceUrl "external_video_id" = false →
      findKeyParam t.parameters = some kp →
      registerArgs t
        = some (stripSlash t.url ++ "/" ++ kp.value,
            some (lastSegment kp.value))) := by
  constructor
  · intro h
    simp [registerArgs, h]
  · intro h hk
    simp [registerArgs, h, hk]

/-- C9 witness: the register-construction theorem instantiated at a
concrete video target (external video id in the resource URL) and a
concrete image target (trailing-slash base URL plus key parameter). -/
theorem C9_register_witness :
    registerArgs targetVid
      = some ("https://videos.example/v1?external_video_id=xyz", none) ∧
    registerArgs targetImg
      = some ("https://upload.example/bucket/tmp/review-image-1.jpg",
          some "review-image-1.jpg") := by
  constructor
  · exact (C9_register_construction targetVid ⟨"key", ""⟩).1 (by decide)
  · exact ((C9_register_construction targetImg
      ⟨"key", "tmp/review-image-1.jpg"⟩).2 (by decide) (by decide)).trans
      (by decide)

/-- C5: over a record set with no approved records, the computed stats are
all zero — totalReviews 0, averageRating 0, recommendationRate 0, and a
distribution mapping each key 1..5 to 0 — with no division-by-zero fault;
and for every record set the averageRating is an integer number of
tenths (rounded to one decimal place). -/
theorem C5_stats_empty (records other : List ReviewRecord)
    (h : ∀ r ∈ records, r.isApproved = false) :
    (computeStats records).totalReviews = 0 ∧
    (computeStats records).averageRating = 0 ∧
    (computeStats records).recommendationRate = 0 ∧
    (computeStats records).ratingDistribution
      = [(1, 0), (2, 0), (3, 0), (4, 0), (5, 0)] ∧
    (computeStats records).verifiedBuyers = 0 ∧
    (computeStats records).recommendations = 0 ∧
    ∃ z : Int, (computeStats other).averageRating = (z : Rat) / 10 := by
  have hfil : records.filter (fun r => r.isApproved) = [] := by
    rw [List.filter_eq_nil_iff]
    intro a ha
    simp [h a ha]
  refine ⟨?_, ?_, ?_, ?_, ?_, ?_, ⟨_, rfl⟩⟩ <;>
    simp only [computeStats, hfil] <;>
    norm_num [jsRound]

/-- C5 witness: the empty-stats theorem instantiated at the empty record
set. -/
theorem C5_stats_empty_witness :
    (computeStats []).totalReviews = 0 ∧
    (computeStats []).averageRating = 0 ∧
    (computeStats []).recommendationRate = 0 ∧
    (computeStats []).ratingDistribution
      = [(1, 0), (2, 0), (3, 0), (4, 0), (5, 0)] ∧
    (computeStats []).verifiedBuyers = 0 ∧
    (computeStats []).recommendations = 0 ∧
    ∃ z : Int, (computeStats []).averageRating = (z : Rat) / 10 :=
  C5_stats_empty [] [] (by simp)

/-- C8 counterexample: on a fetched raw object whose `rating` field is the
empty string, the decoder yields the number `0` — not the null the claim
requires for every numeric field (the code computes
`parseInt(fields.rating) || 0` for `rating`, unlike `fit_rating` and
`shipping_rating`). -/
theorem C8_decode_counterexample :
    lookupLast "rating" metaRatingEmpty.fields = some "" ∧
    (decode metaRatingEmpty).rating = some 0 ∧
    (decode metaRatingEmpty).rating ≠ none ∧
    (decode metaRatingEmpty).fitRating = none ∧
    (decode metaRatingEmpty).shippingRating = none := by
  decide

/-- C8 amended: the decoder performs the inverse coercion — `"true"`
becomes `true` and anything else `false` for the boolean fields, decimal
strings become their integers, an empty string for `fit_rating` or
`shipping_rating` becomes null, while an empty or absent `rating` becomes
the number 0 (not null) — and unknown or absent keys default to null
rather than causing a failure (the decoder is total). -/
theorem C8_decode_amended (flds : List (String × String))
    (oid cap : String) (n m p : Nat) :
    (lookupLast "rating" flds = some (natToDec n) →
      (decode ⟨oid, flds, cap⟩).rating = some n) ∧
    (lookupLast "rating" flds = some "" →
      (decode ⟨oid, flds, cap⟩).rating = some 0) ∧
    (lookupLast "rating" flds = none →
      (decode ⟨oid, flds, cap⟩).rating = some 0) ∧
    (lookupLast "fit_rating" flds = some (natToDec m) →
      (decode ⟨oid, flds, cap⟩).fitRating = some m) ∧
    (lookupLast "fit_rating" flds = some "" →
      (decode ⟨oid, flds, cap⟩).fitRating = none) ∧
    (lookupLast "fit_rating" flds = none →
      (decode ⟨oid, flds, cap⟩).fitRating = none) ∧
    (lookupLast "shipping_rating" flds = some (natToDec p) →
      (decode ⟨oid, flds, cap⟩).shippingRating = some p) ∧
    (lookupLast "shipping_rating" flds = some "" →
      (decode ⟨oid, flds, cap⟩).shippingRating = none) ∧
    (lookupLast "shipping_rating" flds = none →
      (decode ⟨oid, flds, cap⟩).shippingRating = none) ∧
    ((decode ⟨oid, flds, cap⟩).isVerifiedBuyer = true ↔
      lookupLast "is_verified_buyer" flds = some "true") ∧
    ((decode ⟨oid, flds, cap⟩).isApproved = true ↔
      lookupLast "is_approved" flds = some "true") ∧
    ((decode ⟨oid, flds, cap⟩).recommendsProduct = true ↔
      lookupLast "recommends_product" flds = some "true") ∧
    (lookupLast "title" flds = none → (decode ⟨oid, flds, cap⟩).title = none) ∧
    (lookupLast "author_name" flds = none →
      (decode ⟨oid, flds, cap⟩).authorName = none) ∧
    (lookupLast "age_range" flds = none →
      (decode ⟨oid, flds, cap⟩).ageRange = none) := by
  refine ⟨?_, ?_, ?_, ?_, ?_, ?_, ?_, ?_, ?_, ?_, ?_, ?_, ?_, ?_, ?_⟩
  · intro h
    show some (((lookupLast "rating" flds).bind jsParseInt).getD 0) = some n
    rw [h, Option.some_bind, jsParseInt_natToDec]
    rfl
  · intro h
    show some (((lookupLast "rating" flds).bind jsParseInt).getD 0) = some 0
    rw [h]
    rfl
  · intro h
    show some (((lookupLast "rating" flds).bind jsParseInt).getD 0) = some 0
    rw [h]
    rfl
  · intro h
    show numOrNull (lookupLast "fit_rating" flds) = some m
    rw [h]
    simp only [numOrNull]
    rw [if_neg (natToDec_ne_empty m), jsParseInt_natToDec]
  · intro h
    show numOrNull (lookupLast "fit_rating" flds) = none
    rw [h]
    rfl
  · intro h
    show numOrNull (lookupLast "fit_rating" flds) = none
    rw [h]
    rfl
  · intro h
    show numOrNull (lookupLast "shipping_rating" flds) = some p
    rw [h]
    simp only [numOrNull]
    rw [if_neg (natToDec_ne_empty p), jsParseInt_natToDec]
  · intro h
    show numOrNull (lookupLast "shipping_rating" flds) = none
    rw [h]
    rfl
  · intro h
    show numOrNull (lookupLast "shipping_rating" flds) = none
    rw [h]
    rfl
  · show (lookupLast "is_verified_buyer" flds == some "true") = true ↔ _
    simp [beq_iff_eq]
  · show (lookupLast "is_approved" flds == some "true") = true ↔ _
    simp [beq_iff_eq]
  · show (lookupLast "recommends_product" flds == some "true") = true ↔ _
    simp [beq_iff_eq]
  · intro h
    show lookupLast "title" flds = none
    exact h
  · intro h
    show lookupLast "author_name" flds = none
    exact h
  · intro h
    show emptyToNull (lookupLast "age_range" flds) = none
    rw [h]
    rfl

/-- C8 witness: the amended decoding theorem instantiated at a concrete
raw object with a decimal `rating`, an empty `fit_rating`, a true
`is_verified_buyer`, and no `title` key. -/
theorem C8_decode_witness :
    (decode ⟨"gid-W", [("rating", "5"), ("fit_rating", ""),
      ("is_verified_buyer", "true")], "DRAFT"⟩).rating = some 5 ∧
    (decode ⟨"gid-W", [("rating", "5"), ("fit_rating", ""),
      ("is_verified_buyer", "true")], "DRAFT"⟩).fitRating = none ∧
    (decode ⟨"gid-W", [("rating", "5"), ("fit_rating", ""),
      ("is_verified_buyer", "true")], "DRAFT"⟩).isVerifiedBuyer = true ∧
    (decode ⟨"gid-W", [("rating", "5"), ("fit_rating", ""),
      ("is_verified_buyer", "true")], "DRAFT"⟩).title = none := by
  have h := C8_decode_amended
    [("rating", "5"), ("fit_rating", ""), ("is_verified_buyer", "true")]
    "gid-W" "DRAFT" 5 7 7
  exact ⟨h.1 (by decide), h.2.2.2.2.1 (by decide),
    h.2.2.2.2.2.2.2.2.2.1.mpr (by decide), h.2.2.2.2.2.2.2.2.2.2.2.2.1 (by decide)⟩

/-- C1 counterexample: run publish-all-drafts over the batch containing
object A — lifecycle (publishable capability) status ACTIVE, and, like
every review this backend creates, no field literally named `status` —
and object B with no status field.  Both objects are republished and the
ledger reports totalProcessed = 2, not 1: the per-object refetch only
retrieves the fields, never the capability status, so A's fetched status
is absent and A is classified as draft too. -/
theorem C1_publish_counterexample :
    objA.capabilityStatus = "ACTIVE" ∧
    lookupLast "status" objA.fields = none ∧
    lookupLast "status" objB.fields = none ∧
    (publishAllDraftRatings dbAB ["gid-A", "gid-B"]
      (fun _ => true)).totalProcessed = 2 ∧
    (publishAllDraftRatings dbAB ["gid-A", "gid-B"]
      (fun _ => true)).totalProcessed ≠ 1 ∧
    (publishAllDraftRatings dbAB ["gid-A", "gid-B"]
      (fun _ => true)).attempted = ["gid-A", "gid-B"] ∧
    (publishAllDraftRatings dbAB ["gid-A", "gid-B"]
      (fun _ => true)).attempted ≠ ["gid-B"] ∧
    (publishAllDraftRatings dbAB ["gid-A", "gid-B"]
      (fun _ => true)).successful = 2 := by
  decide

/-- C1 amended: in the scenario batch both A and B are republished and the
ledger reports totalProcessed = 2, because the per-object fetch does not
retrieve the lifecycle capability status; in general an object is
classified as draft exactly when the status property of its fetched
detail — populated only by a literal `status` field — is anything other
than exactly `"ACTIVE"` (fetch failed, property absent, falsy, or a
different string). -/
theorem C1_publish_amended :
    (publishAllDraftRatings dbAB ["gid-A", "gid-B"]
      (fun _ => true)).totalProcessed = 2 ∧
    (publishAllDraftRatings dbAB ["gid-A", "gid-B"]
      (fun _ => true)).attempted = ["gid-A", "gid-B"] ∧
    ∀ fetched : Option ReviewRecord,
      classifyDraft fetched = true ↔
        ∀ r, fetched = some r → r.status ≠ some "ACTIVE" := by
  refine ⟨by decide, by decide, ?_⟩
  intro fetched
  cases fetched with
  | none => simp [classifyDraft]
  | some r =>
    cases hst : r.status with
    | none => simp [classifyDraft, hst]
    | some st =>
      by_cases hA : st = "ACTIVE"
      · subst hA
        simp [classifyDraft, hst]
      · by_cases hE : st = ""
        · subst hE
          simp [classifyDraft, hst]
        · simp [classifyDraft, hst, hE, hA]
